import Mathlib

/-!
# music-store: retrieval handlers, JSON rendering and route dispatch

A shallow embedding of `main.go`.  The HTTP handlers are pure functions from
the backend and the request's path variables to the response written and the
list of statements sent to the backend.

Library behaviour the handlers rely on is modelled as documented by the
libraries themselves:

* `database/sql`: `Rows.Next` returns false at the end of the result set *and*
  when fetching fails (the failure is then reported by `Rows.Err`);
  `Row.Scan` returns `ErrNoRows` exactly when the statement ran and produced no
  row.
* `net/http`: `http.Error` sets `Content-Type: text/plain; charset=utf-8` and
  `X-Content-Type-Options: nosniff`, writes the status and the message
  followed by a line feed; a handler that writes a body without calling
  `WriteHeader` answers 200.
* `encoding/json`: `Encoder.Encode` writes the JSON text followed by a line
  feed, struct fields in declaration order under their tag names, a nil slice
  as `null`, strings escaped by `appendString` (HTML escaping switched on).
-/

namespace MusicStore

/-! ## Entities -/

/-- A Go `float64`, kept as its IEEE-754 bit pattern; its arithmetic is never used. -/
structure Float64 where
  bits : Nat
  deriving DecidableEq, Repr

/-- Go struct `Album`. -/
structure Album where
  ID : Int
  Title : String
  ReleaseYear : Int
  Price : Float64
  ArtistID : Int
  deriving DecidableEq, Repr

/-- Go struct `Song`. -/
structure Song where
  ID : Int
  Title : String
  AlbumID : Int
  Duration : String
  Year : Int
  deriving DecidableEq, Repr

/-- Go struct `Artist`. -/
structure Artist where
  ID : Int
  Name : String
  Country : String
  FormedYear : Int
  deriving DecidableEq, Repr

/-! ## Backend (`database/sql`) -/

/-- A statement sent to the backend: its text and the bound arguments. -/
structure Call where
  sql : String
  args : List String
  deriving DecidableEq, Repr

/-- A result set as the handler's loop sees it: the rows that `Next` delivers,
each with the outcome of `Scan` into the handler's destination fields, and the
value of `Rows.Err` once `Next` has returned false. -/
structure Rows (α : Type) where
  fetched : List (Except String α)
  err : Option String

/-- The process-wide handle `db`: for each relation, the answer of the backend
to a statement with its bound arguments (an error message when the statement
cannot be run). -/
structure DB where
  albums : String → List String → Except String (Rows Album)
  songs : String → List String → Except String (Rows Song)
  artists : String → List String → Except String (Rows Artist)

/-- Errors seen by a handler: the sentinel `sql.ErrNoRows`, or any other error
with its message. -/
inductive SqlError where
  | ErrNoRows
  | other (msg : String)
  deriving DecidableEq, Repr

/-- The call `db.QueryRow(...).Scan(...)`: the statement's error if it failed; with
no row, the iteration error if there is one and `ErrNoRows` otherwise; else the
outcome of scanning the first row. -/
def QueryRowScan {α : Type} (res : Except String (Rows α)) : Except SqlError α :=
  match res with
  | .error e => .error (.other e)
  | .ok rows =>
    match rows.fetched with
    | [] =>
      match rows.err with
      | some e => .error (.other e)
      | none => .error .ErrNoRows
    | .error e :: _ => .error (.other e)
    | .ok a :: _ => .ok a

/-- The loop `for rows.Next() { Scan; append }` of the list handlers: stops
with the first scan error, otherwise appends every fetched row.  `Rows.Err` is
not consulted. -/
def scanLoop {α : Type} : List (Except String α) → List α → Except String (List α)
  | [], acc => .ok acc
  | .error e :: _, _ => .error e
  | .ok a :: rest, acc => scanLoop rest (acc ++ [a])

/-! ## Responses (`net/http`) -/

/-- What a handler leaves in the `ResponseWriter`: status, the headers it set
itself, and the body. -/
structure Response where
  status : Nat
  headers : List (String × String)
  body : String
  deriving DecidableEq, Repr

/-- Value of a header the handler set, if any. -/
def Response.header (r : Response) (name : String) : Option String :=
  (r.headers.find? (fun h => h.1 == name)).map (fun h => h.2)

def StatusOK : Nat := 200
def StatusBadRequest : Nat := 400
def StatusNotFound : Nat := 404
def StatusInternalServerError : Nat := 500

/-- The call `http.Error(w, msg, code)`. -/
def httpError (msg : String) (code : Nat) : Response :=
  { status := code
    headers := [("Content-Type", "text/plain; charset=utf-8"),
                ("X-Content-Type-Options", "nosniff")]
    body := msg ++ "\n" }

/-- The call `json.NewEncoder(w).Encode(v)` on a fresh `ResponseWriter`: `some text`
is the JSON text of `v`; `none` is an encoding error, which the handlers ignore,
so nothing is written.  No header is set and the status is the implicit 200. -/
def encodeTo (json : Option String) : Response :=
  match json with
  | some text => { status := StatusOK, headers := [], body := text ++ "\n" }
  | none => { status := StatusOK, headers := [], body := "" }

/-- Path variables of the request, `mux.Vars(r)`. -/
abbrev Vars := List (String × String)

/-- Go map lookup `params[name]`: the empty string when absent. -/
def Vars.get (params : Vars) (name : String) : String :=
  match params.find? (fun kv => kv.1 == name) with
  | some kv => kv.2
  | none => ""

/-! ## JSON rendering (`encoding/json`) -/

/-- Decimal digit of a number below ten. -/
def digitChar (d : Nat) : Char :=
  match d with
  | 0 => '0' | 1 => '1' | 2 => '2' | 3 => '3' | 4 => '4'
  | 5 => '5' | 6 => '6' | 7 => '7' | 8 => '8' | _ => '9'

/-- Decimal digits of `n`, most significant first; `fuel` bounds the number of
digits and `n + 1` always suffices. -/
def natDigits : Nat → Nat → List Char
  | 0, _ => []
  | fuel + 1, n =>
    if n < 10 then [digitChar n] else natDigits fuel (n / 10) ++ [digitChar (n % 10)]

/-- An integer in decimal, with a minus sign when negative, as written by
`strconv.AppendInt(dst, n, 10)`. -/
def formatInt : Int → List Char
  | Int.ofNat n => natDigits (n + 1) n
  | Int.negSucc n => '-' :: natDigits (n + 2) (n + 1)

/-- Lower-case hexadecimal digit of a number below sixteen (the table `hex`). -/
def hexChar (d : Nat) : Char :=
  match d with
  | 0 => '0' | 1 => '1' | 2 => '2' | 3 => '3' | 4 => '4' | 5 => '5' | 6 => '6' | 7 => '7'
  | 8 => '8' | 9 => '9' | 10 => 'a' | 11 => 'b' | 12 => 'c' | 13 => 'd' | 14 => 'e' | _ => 'f'

/-- One character of a string as `appendString` writes it with HTML escaping:
quote and backslash get a backslash; backspace, form feed, line feed, carriage
return and tab their short escapes; the other control characters and `<`, `>`,
`&` become `\u00XX`; U+2028 and U+2029 are escaped; the rest is copied.
(Releases before Go 1.22 write backspace and form feed as `\u0008` and `\u000c`,
which stand for the same characters.) -/
def escapeChar (c : Char) : List Char :=
  if c = '"' then ['\\', '"']
  else if c = '\\' then ['\\', '\\']
  else if c = '\x08' then ['\\', 'b']
  else if c = '\x0c' then ['\\', 'f']
  else if c = '\n' then ['\\', 'n']
  else if c = '\r' then ['\\', 'r']
  else if c = '\t' then ['\\', 't']
  else if c.toNat < 0x20 ∨ c = '<' ∨ c = '>' ∨ c = '&' then
    ['\\', 'u', '0', '0', hexChar (c.toNat / 16), hexChar (c.toNat % 16)]
  else if c = Char.ofNat 0x2028 then ['\\', 'u', '2', '0', '2', '8']
  else if c = Char.ofNat 0x2029 then ['\\', 'u', '2', '0', '2', '9']
  else [c]

/-- Escaped contents of a string, without the surrounding quotes. -/
def escape : List Char → List Char
  | [] => []
  | c :: cs => escapeChar c ++ escape cs

/-- A JSON string literal, as written by `appendString`. -/
def quote (s : String) : List Char :=
  '"' :: (escape s.data ++ ['"'])

/-- JSON text of an `Artist`: keys `id`, `name`, `country`, `formed_year`. -/
def artistJSON (a : Artist) : List Char :=
  '\x7b' :: (quote "id" ++ ':' :: (formatInt a.ID ++ ',' ::
    (quote "name" ++ ':' :: (quote a.Name ++ ',' ::
    (quote "country" ++ ':' :: (quote a.Country ++ ',' ::
    (quote "formed_year" ++ ':' :: (formatInt a.FormedYear ++ ['\x7d']))))))))

/-- JSON text of a `Song`: keys `id`, `title`, `album_id`, `duration`, `year`. -/
def songJSON (s : Song) : List Char :=
  '\x7b' :: (quote "id" ++ ':' :: (formatInt s.ID ++ ',' ::
    (quote "title" ++ ':' :: (quote s.Title ++ ',' ::
    (quote "album_id" ++ ':' :: (formatInt s.AlbumID ++ ',' ::
    (quote "duration" ++ ':' :: (quote s.Duration ++ ',' ::
    (quote "year" ++ ':' :: (formatInt s.Year ++ ['\x7d']))))))))))

/-- JSON text of an `Album`, given the text of its price; keys `id`, `title`,
`release_year`, `price`, `artist_id`. -/
def albumJSON (price : String) (a : Album) : List Char :=
  '\x7b' :: (quote "id" ++ ':' :: (formatInt a.ID ++ ',' ::
    (quote "title" ++ ':' :: (quote a.Title ++ ',' ::
    (quote "release_year" ++ ':' :: (formatInt a.ReleaseYear ++ ',' ::
    (quote "price" ++ ':' :: (price.data ++ ',' ::
    (quote "artist_id" ++ ':' :: (formatInt a.ArtistID ++ ['\x7d']))))))))))

/-- Elements of a non-empty JSON array, separated by commas. -/
def joinComma : List (List Char) → List Char
  | [] => []
  | [x] => x
  | x :: y :: rest => x ++ ',' :: joinComma (y :: rest)

/-- JSON text of a slice that was declared with `var xs []T` and only grown by
`append`: such a slice is nil exactly when it has no element, and a nil slice
is written as `null`. -/
def sliceJSON (elems : List (List Char)) : List Char :=
  match elems with
  | [] => ['n', 'u', 'l', 'l']
  | _ :: _ => '[' :: (joinComma elems ++ [']'])

def encodeArtist (a : Artist) : Option String := some (String.mk (artistJSON a))

def encodeSong (s : Song) : Option String := some (String.mk (songJSON s))

def encodeArtists (xs : List Artist) : Option String :=
  some (String.mk (sliceJSON (xs.map artistJSON)))

def encodeSongs (xs : List Song) : Option String :=
  some (String.mk (sliceJSON (xs.map songJSON)))

/-- Encoding an `Album`.  `floatJSON` is the JSON text `encoding/json` gives a
`float64`, and `none` for the values it refuses (NaN, infinities), in which
case the whole encoding fails. -/
def encodeAlbum (floatJSON : Float64 → Option String) (a : Album) : Option String :=
  match floatJSON a.Price with
  | some p => some (String.mk (albumJSON p a))
  | none => none

/-- Texts of all albums, or `none` when one price has no JSON text. -/
def albumTexts (floatJSON : Float64 → Option String) : List Album → Option (List (List Char))
  | [] => some []
  | a :: rest =>
    match floatJSON a.Price, albumTexts floatJSON rest with
    | some p, some ts => some (albumJSON p a :: ts)
    | _, _ => none

def encodeAlbums (floatJSON : Float64 → Option String) (xs : List Album) : Option String :=
  match albumTexts floatJSON xs with
  | some ts => some (String.mk (sliceJSON ts))
  | none => none

/-! ## Handlers -/

def sqlAllAlbums : String := "SELECT id, title, release_year, price, artist_id FROM albums"
def sqlAlbumByID : String :=
  "SELECT id, title, release_year, price, artist_id FROM albums WHERE id = ?"
def sqlAllSongs : String := "SELECT id, title, album_id, duration, year FROM songs"
def sqlSongByID : String := "SELECT id, title, album_id, duration, year FROM songs WHERE id = ?"
def sqlAllArtists : String := "SELECT id, name, country, formed_year FROM artists"
def sqlArtistByID : String := "SELECT id, name, country, formed_year FROM artists WHERE id = ?"
def sqlSongsByYear : String :=
  "SELECT id, title, album_id, duration, year FROM songs WHERE year = ?"

/-- Handler `getAllAlbums`. -/
def getAllAlbums (floatJSON : Float64 → Option String) (db : DB) (_params : Vars) :
    Response × List Call :=
  let call : Call := { sql := sqlAllAlbums, args := [] }
  match db.albums call.sql call.args with
  | .error e => (httpError e StatusInternalServerError, [call])
  | .ok rows =>
    match scanLoop rows.fetched [] with
    | .error e => (httpError e StatusInternalServerError, [call])
    | .ok albums => (encodeTo (encodeAlbums floatJSON albums), [call])

/-- Handler `getAlbumByID`. -/
def getAlbumByID (floatJSON : Float64 → Option String) (db : DB) (params : Vars) :
    Response × List Call :=
  let id := params.get "id"
  let call : Call := { sql := sqlAlbumByID, args := [id] }
  match QueryRowScan (db.albums call.sql call.args) with
  | .error .ErrNoRows => (httpError "Album not found" StatusNotFound, [call])
  | .error (.other e) => (httpError e StatusInternalServerError, [call])
  | .ok album => (encodeTo (encodeAlbum floatJSON album), [call])

/-- Handler `getAllSongs`. -/
def getAllSongs (db : DB) (_params : Vars) : Response × List Call :=
  let call : Call := { sql := sqlAllSongs, args := [] }
  match db.songs call.sql call.args with
  | .error e => (httpError e StatusInternalServerError, [call])
  | .ok rows =>
    match scanLoop rows.fetched [] with
    | .error e => (httpError e StatusInternalServerError, [call])
    | .ok songs => (encodeTo (encodeSongs songs), [call])

/-- Handler `getSongByID`. -/
def getSongByID (db : DB) (params : Vars) : Response × List Call :=
  let id := params.get "id"
  let call : Call := { sql := sqlSongByID, args := [id] }
  match QueryRowScan (db.songs call.sql call.args) with
  | .error .ErrNoRows => (httpError "Song not found" StatusNotFound, [call])
  | .error (.other e) => (httpError e StatusInternalServerError, [call])
  | .ok song => (encodeTo (encodeSong song), [call])

/-- Handler `getAllArtists`. -/
def getAllArtists (db : DB) (_params : Vars) : Response × List Call :=
  let call : Call := { sql := sqlAllArtists, args := [] }
  match db.artists call.sql call.args with
  | .error e => (httpError e StatusInternalServerError, [call])
  | .ok rows =>
    match scanLoop rows.fetched [] with
    | .error e => (httpError e StatusInternalServerError, [call])
    | .ok artists => (encodeTo (encodeArtists artists), [call])

/-- Handler `getArtistByID`. -/
def getArtistByID (db : DB) (params : Vars) : Response × List Call :=
  let id := params.get "id"
  let call : Call := { sql := sqlArtistByID, args := [id] }
  match QueryRowScan (db.artists call.sql call.args) with
  | .error .ErrNoRows => (httpError "Artist not found" StatusNotFound, [call])
  | .error (.other e) => (httpError e StatusInternalServerError, [call])
  | .ok artist => (encodeTo (encodeArtist artist), [call])

/-- Handler `getSongsByYear`. -/
def getSongsByYear (db : DB) (params : Vars) : Response × List Call :=
  let year := params.get "year"
  let call : Call := { sql := sqlSongsByYear, args := [year] }
  match db.songs call.sql call.args with
  | .error e => (httpError e StatusInternalServerError, [call])
  | .ok rows =>
    match scanLoop rows.fetched [] with
    | .error e => (httpError e StatusInternalServerError, [call])
    | .ok songs => (encodeTo (encodeSongs songs), [call])

/-! ## JSON parsing (`encoding/json`, flat objects)

The decoder covers the fragment the entities use: an object whose members are
strings and integers.  Other JSON values are rejected. -/

/-- Leading decimal digits of the input and what follows them. -/
def spanDigits : List Char → List Char × List Char
  | [] => ([], [])
  | c :: cs =>
    if c.isDigit then ((spanDigits cs).1.cons c, (spanDigits cs).2) else ([], c :: cs)

/-- Value of a run of decimal digits. -/
def digitsValue (ds : List Char) : Nat :=
  ds.foldl (fun acc c => acc * 10 + (c.toNat - 48)) 0

/-- An unsigned JSON integer: a non-empty run of digits without a superfluous
leading zero, not continued by a fraction or an exponent (which an integer
field does not accept). -/
def parseNat (cs : List Char) : Option (Nat × List Char) :=
  match spanDigits cs with
  | ([], _) => none
  | (d :: ds, rest) =>
    if d = '0' ∧ ds ≠ [] then none
    else if rest.head? = some '.' ∨ rest.head? = some 'e' ∨ rest.head? = some 'E' then none
    else some (digitsValue (d :: ds), rest)

/-- A JSON integer with an optional minus sign. -/
def parseInt : List Char → Option (Int × List Char)
  | [] => none
  | c :: cs =>
    if c = '-' then
      match parseNat cs with
      | some (n, rest) => some (-(n : Int), rest)
      | none => none
    else
      match parseNat (c :: cs) with
      | some (n, rest) => some ((n : Int), rest)
      | none => none

/-- The seven handlers. -/
inductive Handler where
  | getAllAlbums
  | getAlbumByID
  | getAllSongs
  | getSongByID
  | getAllArtists
  | getArtistByID
  | getSongsByYear
  deriving DecidableEq, Repr

/-- Runs a handler. -/
def Handler.serve (floatJSON : Float64 → Option String) (db : DB) (h : Handler) (params : Vars) :
    Response × List Call :=
  match h with
  | .getAllAlbums => MusicStore.getAllAlbums floatJSON db params
  | .getAlbumByID => MusicStore.getAlbumByID floatJSON db params
  | .getAllSongs => MusicStore.getAllSongs db params
  | .getSongByID => MusicStore.getSongByID db params
  | .getAllArtists => MusicStore.getAllArtists db params
  | .getArtistByID => MusicStore.getArtistByID db params
  | .getSongsByYear => MusicStore.getSongsByYear db params

/-- The three relations. -/
structure Store where
  albums : List Album
  songs : List Song
  artists : List Artist

/-- A result set delivering the given rows without any error. -/
def allRows {α : Type} (xs : List α) : Except String (Rows α) :=
  .ok { fetched := xs.map Except.ok, err := none }

/-- The backend holding `st`; `eqInt col text` is its comparison `col = ?` with
`text` bound to the placeholder. -/
def storeDB (eqInt : Int → String → Bool) (st : Store) : DB where
  albums sql args :=
    if sql = sqlAllAlbums then allRows st.albums
    else if sql = sqlAlbumByID then
      match args with
      | [a] => allRows (st.albums.filter (fun r => eqInt r.ID a))
      | _ => .error "wrong number of arguments"
    else .error "unknown statement"
  songs sql args :=
    if sql = sqlAllSongs then allRows st.songs
    else if sql = sqlSongByID then
      match args with
      | [a] => allRows (st.songs.filter (fun r => eqInt r.ID a))
      | _ => .error "wrong number of arguments"
    else if sql = sqlSongsByYear then
      match args with
      | [a] => allRows (st.songs.filter (fun r => eqInt r.Year a))
      | _ => .error "wrong number of arguments"
    else .error "unknown statement"
  artists sql args :=
    if sql = sqlAllArtists then allRows st.artists
    else if sql = sqlArtistByID then
      match args with
      | [a] => allRows (st.artists.filter (fun r => eqInt r.ID a))
      | _ => .error "wrong number of arguments"
    else .error "unknown statement"

/-- A comparison that reads the bound text as a decimal integer and matches
nothing when it is not one. -/
def eqDecimal (col : Int) (text : String) : Bool :=
  match parseInt text.data with
  | some (n, []) => decide (col = n)
  | _ => false

/-- Whether a statement ran without error and produced no row. -/
def noRows {α : Type} (res : Except String (Rows α)) : Bool :=
  match res with
  | .ok rows => rows.fetched.isEmpty && rows.err.isNone
  | .error _ => false

/-- Text of an optionally signed decimal integer. -/
def isIntegerText (s : String) : Bool :=
  match s.data with
  | [] => false
  | c :: cs =>
    if c = '-' ∨ c = '+' then !cs.isEmpty && cs.all Char.isDigit
    else (c :: cs).all Char.isDigit

def sampleArtist : Artist := { ID := 1, Name := "Test", Country := "US", FormedYear := 1990 }

def sampleSong : Song :=
  { ID := 7, Title := "Intro", AlbumID := 3, Duration := "3:45", Year := 1990 }

def otherSong : Song :=
  { ID := 8, Title := "Outro", AlbumID := 3, Duration := "4:10", Year := 1991 }

def sampleAlbum : Album :=
  { ID := 3, Title := "First", ReleaseYear := 1990, Price := { bits := 0x4023FAE147AE147B },
    ArtistID := 1 }

def sampleStore : Store :=
  { albums := [sampleAlbum], songs := [sampleSong, otherSong], artists := [sampleArtist] }

def emptyStore : Store := { albums := [], songs := [], artists := [] }

/-- A float rendering for the samples: the bit pattern of 9.99 and nothing else. -/
def sampleFloatJSON (x : Float64) : Option String :=
  if x.bits = 0x4023FAE147AE147B then some "9.99" else none

/-- A backend that loses its connection after delivering one song. -/
def brokenDB : DB where
  albums _ _ := .error "invalid connection"
  songs _ _ := .ok { fetched := [.ok sampleSong], err := some "invalid connection" }
  artists _ _ := .error "invalid connection"


/-! ## Basic facts about responses and the row helpers -/

@[simp] theorem encodeTo_status (j : Option String) : (encodeTo j).status = StatusOK := by
  cases j <;> rfl

@[simp] theorem encodeTo_headers (j : Option String) : (encodeTo j).headers = [] := by
  cases j <;> rfl

@[simp] theorem httpError_status (msg : String) (code : Nat) :
    (httpError msg code).status = code := rfl

@[simp] theorem httpError_body (msg : String) (code : Nat) :
    (httpError msg code).body = msg ++ "\n" := rfl

theorem httpError_contentType (msg : String) (code : Nat) :
    (httpError msg code).header "Content-Type" = some "text/plain; charset=utf-8" := by
  simp [httpError, Response.header, List.find?]

@[simp] theorem vars_get_single (name value : String) :
    Vars.get [(name, value)] name = value := by
  simp [Vars.get, List.find?]

/-- The sentinel comes out of `QueryRowScan` exactly for a statement that ran
without error and produced no row. -/
theorem queryRowScan_errNoRows {α : Type} (res : Except String (Rows α)) :
    QueryRowScan res = .error .ErrNoRows ↔ noRows res = true := by
  cases res with
  | error e => simp [QueryRowScan, noRows]
  | ok rows =>
    obtain ⟨fetched, err⟩ := rows
    cases fetched with
    | nil => cases err <;> simp [QueryRowScan, noRows]
    | cons r rs => cases r <;> simp [QueryRowScan, noRows]

/-- C1 (as stated) fails: `abc` is not integer text, yet `getSongByID` sends its
statement with `abc` bound to it and answers 404, not 400. -/
theorem getSongByID_abc_not_rejected :
    isIntegerText "abc" = false ∧
      (getSongByID (storeDB eqDecimal sampleStore) [("id", "abc")]).1.status = StatusNotFound ∧
      (getSongByID (storeDB eqDecimal sampleStore) [("id", "abc")]).1.status ≠
        StatusBadRequest ∧
      (getSongByID (storeDB eqDecimal sampleStore) [("id", "abc")]).2 =
        [{ sql := sqlSongByID, args := ["abc"] }] := by
  decide

/-- C1 (as amended): for every path parameter text, integer or not, each of
`getAlbumByID`, `getSongByID`, `getArtistByID` and `getSongsByYear` sends exactly
one statement to the backend, with the text bound unparsed, and answers 200,
404 or 500, never 400. -/
theorem handlers_never_validate (floatJSON : Float64 → Option String) (db : DB) (p : String) :
    ((getAlbumByID floatJSON db [("id", p)]).2 = [{ sql := sqlAlbumByID, args := [p] }] ∧
      (getAlbumByID floatJSON db [("id", p)]).1.status ∈
        [StatusOK, StatusNotFound, StatusInternalServerError]) ∧
    ((getSongByID db [("id", p)]).2 = [{ sql := sqlSongByID, args := [p] }] ∧
      (getSongByID db [("id", p)]).1.status ∈
        [StatusOK, StatusNotFound, StatusInternalServerError]) ∧
    ((getArtistByID db [("id", p)]).2 = [{ sql := sqlArtistByID, args := [p] }] ∧
      (getArtistByID db [("id", p)]).1.status ∈
        [StatusOK, StatusNotFound, StatusInternalServerError]) ∧
    ((getSongsByYear db [("year", p)]).2 = [{ sql := sqlSongsByYear, args := [p] }] ∧
      (getSongsByYear db [("year", p)]).1.status ∈ [StatusOK, StatusInternalServerError]) := by
  refine ⟨?_, ?_, ?_, ?_⟩
  · simp only [getAlbumByID, vars_get_single]
    split <;> simp
  · simp only [getSongByID, vars_get_single]
    split <;> simp
  · simp only [getArtistByID, vars_get_single]
    split <;> simp
  · simp only [getSongsByYear, vars_get_single]
    split
    · simp
    · split <;> simp


/-! ## Not found versus error -/

/-- C2: each by-id handler answers 404 exactly when its statement ran without
error and produced no row, and the whole response is then `http.Error` with the
message of its entity (`Album not found`, `Song not found`, `Artist not found`);
in particular such a request is never answered 200 or 500. -/
theorem byID_notFound_iff_noRows (floatJSON : Float64 → Option String) (db : DB) (params : Vars) :
    (((getAlbumByID floatJSON db params).1.status = StatusNotFound ↔
        noRows (db.albums sqlAlbumByID [params.get "id"]) = true) ∧
      ((getAlbumByID floatJSON db params).1 = httpError "Album not found" StatusNotFound ↔
        noRows (db.albums sqlAlbumByID [params.get "id"]) = true)) ∧
    (((getSongByID db params).1.status = StatusNotFound ↔
        noRows (db.songs sqlSongByID [params.get "id"]) = true) ∧
      ((getSongByID db params).1 = httpError "Song not found" StatusNotFound ↔
        noRows (db.songs sqlSongByID [params.get "id"]) = true)) ∧
    (((getArtistByID db params).1.status = StatusNotFound ↔
        noRows (db.artists sqlArtistByID [params.get "id"]) = true) ∧
      ((getArtistByID db params).1 = httpError "Artist not found" StatusNotFound ↔
        noRows (db.artists sqlArtistByID [params.get "id"]) = true)) := by
  refine ⟨⟨?_, ?_⟩, ⟨?_, ?_⟩, ⟨?_, ?_⟩⟩
  all_goals
    rw [← queryRowScan_errNoRows]
    first
      | simp only [getAlbumByID]
      | simp only [getSongByID]
      | simp only [getArtistByID]
    split
    · simp [*]
    · next e h =>
      simp only [h]
      constructor
      · intro hs
        have hst : (httpError e StatusInternalServerError).status = StatusNotFound := by
          first
            | exact hs
            | exact congrArg Response.status hs
        simp [StatusNotFound, StatusInternalServerError] at hst
      · intro hs
        simp at hs
    · next a h =>
      simp only [h]
      constructor
      · intro hs
        have hst : StatusOK = StatusNotFound := by
          rw [← encodeTo_status]
          first
            | exact hs
            | exact congrArg Response.status hs
        simp [StatusNotFound, StatusOK] at hst
      · intro hs
        simp at hs

/-! ## Empty and broken result sets -/

/-- C5 at the failing input: over a backend with empty relations, all four list
handlers answer 200 with the body `null` (and a line feed), not `[]`. -/
theorem empty_list_is_null :
    (getAllAlbums sampleFloatJSON (storeDB eqDecimal emptyStore) []).1 =
        { status := 200, headers := [], body := "null\n" } ∧
      (getAllSongs (storeDB eqDecimal emptyStore) []).1 =
        { status := 200, headers := [], body := "null\n" } ∧
      (getAllArtists (storeDB eqDecimal emptyStore) []).1 =
        { status := 200, headers := [], body := "null\n" } ∧
      (getSongsByYear (storeDB eqDecimal sampleStore) [("year", "2005")]).1 =
        { status := 200, headers := [], body := "null\n" } := by
  decide

/-- C6 at the failing input: the backend delivers one song and then fails
(`Next` returns false, `Rows.Err` holds the error); `getAllSongs` answers 200
with the one song read so far instead of 500. -/
theorem iteration_error_truncates :
    brokenDB.songs sqlAllSongs [] =
        .ok { fetched := [.ok sampleSong], err := some "invalid connection" } ∧
      (getAllSongs brokenDB []).1 =
        { status := 200, headers := [],
          body := "[\x7b\"id\":7,\"title\":\"Intro\",\"album_id\":3,\"duration\":\"3:45\",\"year\":1990\x7d]\n" } := by
  constructor
  · rfl
  · decide

/-- A failure when the statement is issued, or when a row is scanned, is
answered 500 with the text of the error by every list handler. -/
theorem list_error_is_500 (floatJSON : Float64 → Option String) (db : DB) (params : Vars)
    (e : String) :
    ((db.albums sqlAllAlbums [] = .error e ∨
        ∃ rows, db.albums sqlAllAlbums [] = .ok rows ∧ scanLoop rows.fetched [] = .error e) →
      (getAllAlbums floatJSON db params).1 = httpError e StatusInternalServerError) ∧
    ((db.songs sqlAllSongs [] = .error e ∨
        ∃ rows, db.songs sqlAllSongs [] = .ok rows ∧ scanLoop rows.fetched [] = .error e) →
      (getAllSongs db params).1 = httpError e StatusInternalServerError) ∧
    ((db.artists sqlAllArtists [] = .error e ∨
        ∃ rows, db.artists sqlAllArtists [] = .ok rows ∧
          scanLoop rows.fetched [] = .error e) →
      (getAllArtists db params).1 = httpError e StatusInternalServerError) ∧
    ((db.songs sqlSongsByYear [params.get "year"] = .error e ∨
        ∃ rows, db.songs sqlSongsByYear [params.get "year"] = .ok rows ∧
          scanLoop rows.fetched [] = .error e) →
      (getSongsByYear db params).1 = httpError e StatusInternalServerError) := by
  refine ⟨?_, ?_, ?_, ?_⟩
  all_goals
    rintro (h | ⟨rows, h, hs⟩)
    · first
        | simp [getAllAlbums, h]
        | simp [getAllSongs, h]
        | simp [getAllArtists, h]
        | simp [getSongsByYear, h]
    · first
        | simp [getAllAlbums, h, hs]
        | simp [getAllSongs, h, hs]
        | simp [getAllArtists, h, hs]
        | simp [getSongsByYear, h, hs]

/-! ## Headers of successful responses -/

/-- C7 (as stated) fails: `getArtistByID` for the stored artist 1 succeeds with
status 200, and the handler has set no `Content-Type` header at all. -/
theorem success_without_json_content_type :
    (getArtistByID (storeDB eqDecimal sampleStore) [("id", "1")]).1.status = StatusOK ∧
      (getArtistByID (storeDB eqDecimal sampleStore) [("id", "1")]).1.header "Content-Type" ≠
        some "application/json" ∧
      (getArtistByID (storeDB eqDecimal sampleStore) [("id", "1")]).1.headers = [] := by
  decide

/-- C7 (as amended): every handler, on every request, either answers 200 having
set no header itself (so no `Content-Type: application/json`), or it answers 404
or 500 through `http.Error`, with `Content-Type: text/plain; charset=utf-8`. -/
theorem success_sets_no_header (floatJSON : Float64 → Option String) (db : DB) (h : Handler)
    (params : Vars) :
    ((h.serve floatJSON db params).1.status = StatusOK ∧
        (h.serve floatJSON db params).1.headers = []) ∨
      (((h.serve floatJSON db params).1.status = StatusNotFound ∨
          (h.serve floatJSON db params).1.status = StatusInternalServerError) ∧
        (h.serve floatJSON db params).1.header "Content-Type" =
          some "text/plain; charset=utf-8") := by
  cases h
  case getAllAlbums =>
    simp only [Handler.serve, getAllAlbums]
    split
    · right; simp [httpError_contentType]
    · split
      · right; simp [httpError_contentType]
      · left; simp
  case getAllSongs =>
    simp only [Handler.serve, getAllSongs]
    split
    · right; simp [httpError_contentType]
    · split
      · right; simp [httpError_contentType]
      · left; simp
  case getAllArtists =>
    simp only [Handler.serve, getAllArtists]
    split
    · right; simp [httpError_contentType]
    · split
      · right; simp [httpError_contentType]
      · left; simp
  case getSongsByYear =>
    simp only [Handler.serve, getSongsByYear]
    split
    · right; simp [httpError_contentType]
    · split
      · right; simp [httpError_contentType]
      · left; simp
  case getAlbumByID =>
    simp only [Handler.serve, getAlbumByID]
    split
    · right; simp [httpError_contentType]
    · right; simp [httpError_contentType]
    · left; simp
  case getSongByID =>
    simp only [Handler.serve, getSongByID]
    split
    · right; simp [httpError_contentType]
    · right; simp [httpError_contentType]
    · left; simp
  case getArtistByID =>
    simp only [Handler.serve, getArtistByID]
    split
    · right; simp [httpError_contentType]
    · right; simp [httpError_contentType]
    · left; simp

/-! ## Statements are fixed texts with one placeholder -/

/-- Number of placeholders in a statement. -/
theorem placeholders_byID :
    sqlAlbumByID.data.count '?' = 1 ∧ sqlSongByID.data.count '?' = 1 ∧
      sqlArtistByID.data.count '?' = 1 ∧ sqlSongsByYear.data.count '?' = 1 := by
  decide

/-- C8: for every value of the path parameter, each of `getAlbumByID`,
`getSongByID`, `getArtistByID` and `getSongsByYear` sends exactly one statement;
its text is a constant holding a single `?` and the parameter is the one bound
argument, so the texts sent for any two parameter values `p` and `q` are equal. -/
theorem parameter_only_bound (floatJSON : Float64 → Option String) (db : DB) (p q : String) :
    ((getAlbumByID floatJSON db [("id", p)]).2 = [{ sql := sqlAlbumByID, args := [p] }] ∧
      (getSongByID db [("id", p)]).2 = [{ sql := sqlSongByID, args := [p] }] ∧
      (getArtistByID db [("id", p)]).2 = [{ sql := sqlArtistByID, args := [p] }] ∧
      (getSongsByYear db [("year", p)]).2 = [{ sql := sqlSongsByYear, args := [p] }]) ∧
    (sqlAlbumByID.data.count '?' = 1 ∧ sqlSongByID.data.count '?' = 1 ∧
      sqlArtistByID.data.count '?' = 1 ∧ sqlSongsByYear.data.count '?' = 1) ∧
    (((getAlbumByID floatJSON db [("id", p)]).2.map Call.sql =
        (getAlbumByID floatJSON db [("id", q)]).2.map Call.sql) ∧
      ((getSongByID db [("id", p)]).2.map Call.sql =
        (getSongByID db [("id", q)]).2.map Call.sql) ∧
      ((getArtistByID db [("id", p)]).2.map Call.sql =
        (getArtistByID db [("id", q)]).2.map Call.sql) ∧
      ((getSongsByYear db [("year", p)]).2.map Call.sql =
        (getSongsByYear db [("year", q)]).2.map Call.sql)) := by
  have key : ∀ r : String,
      (getAlbumByID floatJSON db [("id", r)]).2 = [{ sql := sqlAlbumByID, args := [r] }] ∧
      (getSongByID db [("id", r)]).2 = [{ sql := sqlSongByID, args := [r] }] ∧
      (getArtistByID db [("id", r)]).2 = [{ sql := sqlArtistByID, args := [r] }] ∧
      (getSongsByYear db [("year", r)]).2 = [{ sql := sqlSongsByYear, args := [r] }] := by
    intro r
    refine ⟨?_, ?_, ?_, ?_⟩
    · simp only [getAlbumByID, vars_get_single]
      split <;> rfl
    · simp only [getSongByID, vars_get_single]
      split <;> rfl
    · simp only [getArtistByID, vars_get_single]
      split <;> rfl
    · simp only [getSongsByYear, vars_get_single]
      split
      · rfl
      · split <;> rfl
  refine ⟨key p, placeholders_byID, ?_⟩
  obtain ⟨a1, a2, a3, a4⟩ := key p
  obtain ⟨b1, b2, b3, b4⟩ := key q
  simp [a1, a2, a3, a4, b1, b2, b3, b4]


/-! ## Decimal numbers read back -/

end MusicStore
